import Mathlib

/-!
Verification of the LDC1101 data-acquisition driver (src/main.c, src/ldc1101.h).

The development shallowly embeds the register codec, the initialization
sequence `ldc1101_init`, and the sampling loop of `main` into Lean.
Machine bytes are modelled as `Nat` (all values involved stay below 256,
masks are written exactly as in the C source).  The SPI transport
`wiringPiSPIxDataRW(num, chan, buf, len)` is a full-duplex exchange that
overwrites the first `len` bytes of `buf` with the bytes captured on the
bus; it is modelled at two levels:

* buffer level (`spi_transfer`): total, `Option`-returning indexing into
  the caller's buffer, so a transfer whose length exceeds the buffer
  reaches the out-of-bounds branch and yields `none`;
* protocol level (`ldc1101_init`, `sampling_loop`): a transaction oracle
  gives, for each SPI transaction, whether the bus call succeeded and the
  byte captured at each index of the exchanged frame.  At this level the
  response byte at index 1 of a read frame is the content of the
  addressed register, index 2 the next register, and so on, which is how
  the C code consumes its buffers.
-/

/-! Register addresses and bit masks, from src/ldc1101.h. -/

/-- Register address 0x01, RP Measurement Dynamic Range. -/
def LDC1101_RP_SET : Nat := 0x01

/-- Register address 0x05, additional device settings. -/
def LDC1101_ALT_CONFIG : Nat := 0x05

/-- Register address 0x0B, power state. -/
def LDC1101_START_CONFIG : Nat := 0x0B

/-- Register address 0x0C, sensor amplitude control. -/
def LDC1101_D_CONF : Nat := 0x0C

/-- Register address 0x30, LHR reference count LSB. -/
def LDC1101_LHR_RCOUNT_LSB : Nat := 0x30

/-- Register address 0x31, LHR reference count MSB. -/
def LDC1101_LHR_RCOUNT_MSB : Nat := 0x31

/-- Register address 0x38, LHR measurement data LSB. -/
def LDC1101_LHR_DATA_LSB : Nat := 0x38

/-- Register address 0x3B, LHR status register. -/
def LDC1101_LHR_STATUS : Nat := 0x3B

/-- Register address 0x3F, device ID. -/
def LDC1101_CHIP_ID : Nat := 0x3F

/-- LHR status bit 0: conversion data is ready (inverted sense, 0 = ready). -/
def LDC1101_LHR_DRDY : Nat := 1 <<< 0

/-! Constants from src/main.c. -/

/-- Macro `HIGH_Q_SENSOR` = `0 << 7` (low-amplitude sensor selector). -/
def HIGH_Q_SENSOR : Nat := 0 <<< 7

/-- Macro `LOPTIMAL` = 0x01, written to ALT_CONFIG. -/
def LOPTIMAL : Nat := 0x01

/-- Macro `DOK_REPORT` = 0x01, written to D_CONF. -/
def DOK_REPORT : Nat := 0x01

/-- Macro `SPI_DEV_ID` = 0xD4, the expected chip identity byte. -/
def SPI_DEV_ID : Nat := 0xD4

/-- Local `uint16_t rcount = 0xffff` of `ldc1101_init`. -/
def rcount : Nat := 0xffff

/-! Timekeeping, from `get_elapsed_time` (src/main.c lines 45-56). -/

/-- A `struct timespec`: seconds and nanoseconds, both signed. -/
structure Timespec where
  tv_sec : Int
  tv_nsec : Int
deriving DecidableEq

/-- Embedding of `get_elapsed_time(start, end)`: subtract two timespecs,
borrowing one second when the nanosecond difference is negative. -/
def get_elapsed_time (start e : Timespec) : Timespec :=
  if e.tv_nsec - start.tv_nsec < 0 then
    { tv_sec := e.tv_sec - start.tv_sec - 1
      tv_nsec := 1000000000 + e.tv_nsec - start.tv_nsec }
  else
    { tv_sec := e.tv_sec - start.tv_sec
      tv_nsec := e.tv_nsec - start.tv_nsec }

/-! Buffer-level transport and register access. -/

/-- Embedding of `wiringPiSPIxDataRW(num, chan, buf, len)` on a successful
bus call: the transfer touches buffer indices `0 .. len - 1`, overwriting
each with the byte captured on the bus (`resp i`).  Total indexing: when
`len` exceeds the buffer length the access is out of bounds and the
result is `none`. -/
def spi_transfer (buf : List Nat) (len : Nat) (resp : Nat → Nat) : Option (List Nat) :=
  if len ≤ buf.length then
    some (buf.mapIdx fun i b => if i < len then resp i else b)
  else
    none

/-- Frame prepared by `ldc1101_set_reg`: `uint8_t data[2] = {reg, value}`
(src/main.c line 91).  No masking is applied to `reg`. -/
def ldc1101_set_reg_frame (reg value : Nat) : List Nat := [reg, value]

/-- Frame prepared by `ldc1101_read_reg` before the transfer:
`data[0] = 1<<7 | reg` (src/main.c line 108); the rest of the caller's
buffer is sent as is. -/
def ldc1101_read_reg_frame (reg : Nat) (data : List Nat) : List Nat :=
  data.set 0 ((1 <<< 7) ||| reg)

/-- Embedding of `ldc1101_read_reg(reg, data, length)` (src/main.c lines
107-115): set the address byte, then transfer `length + 1` bytes ("+1 for
register address byte") over the caller's buffer. -/
def ldc1101_read_reg (reg : Nat) (data : List Nat) (length : Nat) (resp : Nat → Nat) :
    Option (List Nat) :=
  spi_transfer (ldc1101_read_reg_frame reg data) (length + 1) resp

/-- The LHR data read issued by `main` (src/main.c lines 302-303):
`uint8_t data[4] = {0, 0, 0, 0}; ldc1101_read_reg(LDC1101_LHR_DATA_LSB,
data, sizeof(data))`, i.e. buffer of 4 bytes, `length = 4`. -/
def main_lhr_read (resp : Nat → Nat) : Option (List Nat) :=
  ldc1101_read_reg LDC1101_LHR_DATA_LSB [0, 0, 0, 0] 4 resp

/-! Sample decoding (src/main.c line 310). -/

/-- Embedding of `value = (data[3] << 16) | (data[2] << 8) | data[1]`:
decode the 24-bit sample from the response buffer of the LHR data read
(index 0 holds the echoed address slot, indices 1..3 the data bytes in
ascending register-address order). -/
def decode_sample (data : List Nat) : Nat :=
  ((data.getD 3 0) <<< 16) ||| ((data.getD 2 0) <<< 8) ||| (data.getD 1 0)

/-! RP_SET composition (src/main.c lines 156-164). -/

/-- Embedding of the RP_SET bitfield composition
`(HIGH_Q_SENSOR | ((rpmax<<4) & 0x70) | (rpmin & 0x07)) & ~0x08`, with
the selector macro generalised to a bit `hq` shifted into bit 7 (the
source instantiates `hq = 0` via `HIGH_Q_SENSOR = 0 << 7`).  `~0x08` on a
`uint8_t` is the mask 0xF7. -/
def rp_set_value (hq rpmax rpmin : Nat) : Nat :=
  ((hq <<< 7) ||| ((rpmax <<< 4) &&& 0x70) ||| (rpmin &&& 0x07)) &&& 0xF7

/-- The concrete `rp_value` computed by `ldc1101_init`:
`rpmin = 0x07`, `rpmax = 0x00`, selector `HIGH_Q_SENSOR = 0 << 7`. -/
def rp_value : Nat := rp_set_value 0 0x00 0x07

/-! Protocol-level model of `ldc1101_init` (src/main.c lines 120-189). -/

/-- Outcome of one SPI transaction at the protocol level: whether the bus
call succeeded, and the byte captured at each index of the exchanged
frame (index 1 of a read frame is the addressed register's content). -/
structure SpiResult where
  ok : Bool
  resp : Nat → Nat

/-- A bus event issued by the driver: a register write (frame
`[reg, value]`) or a register read (frame of `length + 1` bytes). -/
inductive Ev where
  | writeReg (reg value : Nat)
  | readReg (reg : Nat) (length : Nat)
deriving DecidableEq

/-- Result of `ldc1101_init`: success, or the fatal condition that made
the process exit (`exit(EXIT_FAILURE)` in the source). -/
inductive InitResult where
  | success
  | writeFailed (reg : Nat)
  | readIdFailed
  | identityMismatch (got : Nat)
deriving DecidableEq

/-- Embedding of `ldc1101_init` (src/main.c lines 136-188), after a
successful SPI setup: the straight-line sequence of register writes, the
chip-identity read and check, and the START_CONFIG trigger write.  `tr n`
is the outcome of the n-th SPI transaction.  The returned trace lists the
bus events actually issued (a failed transfer is still an issued event;
`ldc1101_set_reg` exits the process after it, which the result records). -/
def ldc1101_init (tr : Nat → SpiResult) : List Ev × InitResult :=
  let w0 := Ev.writeReg LDC1101_ALT_CONFIG LOPTIMAL
  if (tr 0).ok then
    let w1 := Ev.writeReg LDC1101_D_CONF DOK_REPORT
    if (tr 1).ok then
      let w2 := Ev.writeReg LDC1101_LHR_RCOUNT_MSB ((rcount >>> 8) &&& 0xFF)
      if (tr 2).ok then
        let w3 := Ev.writeReg LDC1101_LHR_RCOUNT_LSB (rcount &&& 0xFF)
        if (tr 3).ok then
          let w4 := Ev.writeReg LDC1101_RP_SET rp_value
          if (tr 4).ok then
            let r5 := Ev.readReg LDC1101_CHIP_ID 2
            if (tr 5).ok then
              let chipId := (tr 5).resp 1
              if chipId = SPI_DEV_ID then
                let w6 := Ev.writeReg LDC1101_START_CONFIG 0
                if (tr 6).ok then
                  ([w0, w1, w2, w3, w4, r5, w6], InitResult.success)
                else
                  ([w0, w1, w2, w3, w4, r5, w6], InitResult.writeFailed LDC1101_START_CONFIG)
              else
                ([w0, w1, w2, w3, w4, r5], InitResult.identityMismatch chipId)
            else
              ([w0, w1, w2, w3, w4, r5], InitResult.readIdFailed)
          else
            ([w0, w1, w2, w3, w4], InitResult.writeFailed LDC1101_RP_SET)
        else
          ([w0, w1, w2, w3], InitResult.writeFailed LDC1101_LHR_RCOUNT_LSB)
      else
        ([w0, w1, w2], InitResult.writeFailed LDC1101_LHR_RCOUNT_MSB)
    else
      ([w0, w1], InitResult.writeFailed LDC1101_D_CONF)
  else
    ([w0], InitResult.writeFailed LDC1101_ALT_CONFIG)

/-- The register address of the k-th configuration write of
`ldc1101_init` preceding the identity read, in program order. -/
def init_write_reg (k : Nat) : Nat :=
  [LDC1101_ALT_CONFIG, LDC1101_D_CONF, LDC1101_LHR_RCOUNT_MSB,
   LDC1101_LHR_RCOUNT_LSB, LDC1101_RP_SET].getD k 0

/-! Protocol-level model of the sampling loop of `main`
(src/main.c lines 292-321). -/

/-- Embedding of the busy-poll `while (status != 0)` (src/main.c lines
294-300) over the sequence of status bytes successive LHR_STATUS reads
return in `data[1]`.  The loop exits at the first byte whose
`LDC1101_LHR_DRDY` bit is clear, returning its index and the byte;
`none` means the modelled response sequence was exhausted with the loop
still spinning (the C program would keep polling). -/
def poll_loop : List Nat → Option (Nat × Nat)
  | [] => none
  | s :: rest =>
    if s &&& LDC1101_LHR_DRDY = 0 then some (0, s)
    else
      match poll_loop rest with
      | none => none
      | some (i, b) => some (i + 1, b)

/-- The transport behaviour of one iteration of the inner sampling loop:
the status bytes returned by successive LHR_STATUS reads, whether the
LHR data read's bus call succeeded, the bytes it captured, and whether
appending the CSV line to the log file succeeded. -/
structure SampleTxn where
  statuses : List Nat
  readOk : Bool
  resp : Nat → Nat
  logOk : Bool

/-- Outcome of one iteration of the inner sampling loop. -/
inductive SampleOutcome where
  | logged (v : Nat)
  | readErrorContinue
deriving DecidableEq

/-- How the sampling loop ended. -/
inductive LoopEnd where
  | completed
  | logWriteAbort
  | stuckPolling
deriving DecidableEq

/-- One iteration of the inner sampling loop (src/main.c lines 293-320):
busy-poll the status register, then issue the LHR data read; a transport
error on that read is logged to syslog and the iteration produces no
sample (`ret == -1` branch, the early `return -1` is commented out);
otherwise the 24-bit sample is decoded from the response buffer.
`none` means the busy-poll never saw the data-ready condition. -/
def sample_iteration (t : SampleTxn) : Option SampleOutcome :=
  match poll_loop t.statuses with
  | none => none
  | some _ =>
    if t.readOk then
      some (SampleOutcome.logged
        (decode_sample [t.resp 0, t.resp 1, t.resp 2, t.resp 3]))
    else
      some SampleOutcome.readErrorContinue

/-- The inner sampling loop over a list of per-iteration transport
behaviours: on a decoded sample the CSV line is written (a failed log
write makes `main` return -1, aborting the loop); on a failed data read
the loop continues with the next iteration. -/
def sampling_loop : List SampleTxn → List SampleOutcome × LoopEnd
  | [] => ([], LoopEnd.completed)
  | t :: rest =>
    match sample_iteration t with
    | none => ([], LoopEnd.stuckPolling)
    | some (SampleOutcome.logged v) =>
      if t.logOk then
        let r := sampling_loop rest
        (SampleOutcome.logged v :: r.1, r.2)
      else
        ([], LoopEnd.logWriteAbort)
    | some SampleOutcome.readErrorContinue =>
      let r := sampling_loop rest
      (SampleOutcome.readErrorContinue :: r.1, r.2)

/-! Concrete transport behaviours used to evaluate the theorems. -/

/-- A transport on which every transaction succeeds and every read
returns the expected chip identity byte at index 1. -/
def tr_good : Nat → SpiResult :=
  fun _ => { ok := true, resp := fun i => if i = 1 then SPI_DEV_ID else 0 }

/-- A transport whose very first transaction fails. -/
def tr_fail0 : Nat → SpiResult :=
  fun _ => { ok := false, resp := fun _ => 0 }

/-- A sampling iteration whose data read fails on the bus (the poll sees
a not-ready status, then a ready one). -/
def txn_read_err : SampleTxn :=
  { statuses := [1, 0], readOk := false, resp := fun _ => 0, logOk := true }

/-- A sampling iteration whose poll and data read both succeed. -/
def txn_read_ok : SampleTxn :=
  { statuses := [1, 0], readOk := true, resp := fun _ => 0, logOk := true }

/-! Theorems. -/

/-- C10: for timespecs with nanosecond fields in [0, 10^9) and end ≥
start, `get_elapsed_time` returns a normalized timespec (nanoseconds
again in [0, 10^9)) equal to the exact difference end − start. -/
theorem c10_get_elapsed_time_exact (s e : Timespec)
    (hs0 : 0 ≤ s.tv_nsec) (hs1 : s.tv_nsec < 1000000000)
    (he0 : 0 ≤ e.tv_nsec) (he1 : e.tv_nsec < 1000000000)
    (hle : s.tv_sec * 1000000000 + s.tv_nsec ≤ e.tv_sec * 1000000000 + e.tv_nsec) :
    0 ≤ (get_elapsed_time s e).tv_nsec ∧
    (get_elapsed_time s e).tv_nsec < 1000000000 ∧
    (get_elapsed_time s e).tv_sec * 1000000000 + (get_elapsed_time s e).tv_nsec =
      (e.tv_sec * 1000000000 + e.tv_nsec) - (s.tv_sec * 1000000000 + s.tv_nsec) := by
  unfold get_elapsed_time
  split <;> dsimp only <;> omega

/-- Witness for C10 at start = 0s + 999999999ns, end = 1s + 0ns. -/
theorem c10_get_elapsed_time_exact_witness :
    0 ≤ (get_elapsed_time ⟨0, 999999999⟩ ⟨1, 0⟩).tv_nsec ∧
    (get_elapsed_time ⟨0, 999999999⟩ ⟨1, 0⟩).tv_nsec < 1000000000 ∧
    (get_elapsed_time ⟨0, 999999999⟩ ⟨1, 0⟩).tv_sec * 1000000000 +
        (get_elapsed_time ⟨0, 999999999⟩ ⟨1, 0⟩).tv_nsec =
      ((1 : Int) * 1000000000 + 0) - ((0 : Int) * 1000000000 + 999999999) :=
  c10_get_elapsed_time_exact ⟨0, 999999999⟩ ⟨1, 0⟩
    (by norm_num) (by norm_num) (by norm_num) (by norm_num) (by norm_num)

/-- C6: the sample decoder maps the three response bytes b0, b1, b2
(buffer indices 1..3, ascending register order) to
`b0 ||| (b1 <<< 8) ||| (b2 <<< 16)`, the result is below 2^24, and the
two concrete cases [1, 2, 3] ↦ 0x030201 and [0, 0, 1] ↦ 65536 hold. -/
theorem c6_decode_sample (x b0 b1 b2 : Nat)
    (h0 : b0 < 256) (h1 : b1 < 256) (h2 : b2 < 256) :
    decode_sample [x, b0, b1, b2] = b0 ||| (b1 <<< 8) ||| (b2 <<< 16) ∧
    decode_sample [x, b0, b1, b2] < 2 ^ 24 ∧
    decode_sample [x, 0x01, 0x02, 0x03] = 0x030201 ∧
    decode_sample [x, 0, 0, 1] = 65536 := by
  refine ⟨?_, ?_,
    by show (3 <<< 16) ||| (2 <<< 8) ||| 1 = 0x030201; decide,
    by show (1 <<< 16) ||| (0 <<< 8) ||| 0 = 65536; decide⟩
  · show (b2 <<< 16) ||| (b1 <<< 8) ||| b0 = b0 ||| (b1 <<< 8) ||| (b2 <<< 16)
    calc (b2 <<< 16) ||| (b1 <<< 8) ||| b0
        = b0 ||| ((b2 <<< 16) ||| (b1 <<< 8)) := Nat.lor_comm _ _
      _ = b0 ||| ((b1 <<< 8) ||| (b2 <<< 16)) := by rw [Nat.lor_comm (b2 <<< 16)]
      _ = b0 ||| (b1 <<< 8) ||| (b2 <<< 16) := (Nat.lor_assoc _ _ _).symm
  · show (b2 <<< 16) ||| (b1 <<< 8) ||| b0 < 2 ^ 24
    have hb2 : b2 <<< 16 < 2 ^ 24 := by
      have h := Nat.shiftLeft_lt (m := 16) (lt_of_lt_of_eq h2 (by norm_num : (256 : Nat) = 2 ^ 8))
      norm_num at h
      exact h
    have hb1 : b1 <<< 8 < 2 ^ 24 := by
      have h := Nat.shiftLeft_lt (m := 8) (lt_of_lt_of_le h1 (by norm_num : (256 : Nat) ≤ 2 ^ 16))
      norm_num at h
      exact h
    exact Nat.or_lt_two_pow (Nat.or_lt_two_pow hb2 hb1) (lt_of_lt_of_le h0 (by norm_num))

/-- Witness for C6 at bytes 1, 2, 3. -/
theorem c6_decode_sample_witness :
    decode_sample [0, 1, 2, 3] = 1 ||| (2 <<< 8) ||| (3 <<< 16) ∧
    decode_sample [0, 1, 2, 3] < 2 ^ 24 ∧
    decode_sample [0, 0x01, 0x02, 0x03] = 0x030201 ∧
    decode_sample [0, 0, 0, 1] = 65536 :=
  c6_decode_sample 0 1 2 3 (by decide) (by decide) (by decide)

/-- C9: the RP_SET byte places the selector bit at bit 7, RP_MAX at bits
6:4 and RP_MIN at bits 2:0 (as the value 128·hq + 16·rpmax + rpmin), bit
3 is forced to 0, and the source's inputs rpmin = 0x07, rpmax = 0x00,
hq = 0 compose to 0x07. -/
theorem c9_rp_set_bitfields (hq rpmax rpmin : Nat)
    (h1 : hq ≤ 1) (h2 : rpmax ≤ 7) (h3 : rpmin ≤ 7) :
    rp_set_value hq rpmax rpmin = 128 * hq + 16 * rpmax + rpmin ∧
    Nat.testBit (rp_set_value hq rpmax rpmin) 3 = false ∧
    rp_value = 0x07 := by
  refine ⟨?_, ?_, by decide⟩ <;>
    (interval_cases hq <;> interval_cases rpmax <;> interval_cases rpmin <;> decide)

/-- Witness for C9 at the source's inputs hq = 0, rpmax = 0, rpmin = 7. -/
theorem c9_rp_set_bitfields_witness :
    rp_set_value 0 0 7 = 128 * 0 + 16 * 0 + 7 ∧
    Nat.testBit (rp_set_value 0 0 7) 3 = false ∧
    rp_value = 0x07 :=
  c9_rp_set_bitfields 0 0 7 (by decide) (by decide) (by decide)

/-- C7: for a 7-bit register address the write frame is
`[a &&& 0x7F, v]` and the first byte of the read frame is `a ||| 0x80`. -/
theorem c7_frame_encoding (a v : Nat) (buf : List Nat)
    (ha : a ≤ 0x7F) (hbuf : buf ≠ []) :
    ldc1101_set_reg_frame a v = [a &&& 0x7F, v] ∧
    (ldc1101_read_reg_frame a buf).head? = some (a ||| 0x80) := by
  constructor
  · have hmask : a &&& 0x7F = a := by
      have h1 := Nat.and_pow_two_sub_one_eq_mod a 7
      norm_num at h1
      rw [h1]
      omega
    rw [ldc1101_set_reg_frame, hmask]
  · cases buf with
    | nil => exact absurd rfl hbuf
    | cons b tl =>
      show some ((1 <<< 7) ||| a) = some (a ||| 0x80)
      rw [show (1 <<< 7 : Nat) = 0x80 from rfl, Nat.lor_comm]

/-- Witness for C7 at the CHIP_ID address 0x3F. -/
theorem c7_frame_encoding_witness :
    ldc1101_set_reg_frame 0x3F 0 = [0x3F &&& 0x7F, 0] ∧
    (ldc1101_read_reg_frame 0x3F [0, 0]).head? = some (0x3F ||| 0x80) :=
  c7_frame_encoding 0x3F 0 [0, 0] (by decide) (by decide)

/-- C2: every `ldc1101_read_reg` call transfers `length + 1` bytes of the
caller's buffer (the transfer succeeds exactly when the buffer holds
them), so the CHIP_ID call site (2-byte buffer, length 2) and the LHR
data call site (4-byte buffer, length 4) both reach the out-of-bounds
branch of the total-indexing transfer. -/
theorem c2_read_reg_overrun (reg : Nat) (resp : Nat → Nat)
    (buf idbuf databuf : List Nat) (len : Nat)
    (hid : idbuf.length = 2) (hdata : databuf.length = 4) :
    ((ldc1101_read_reg reg buf len resp).isSome ↔ len + 1 ≤ buf.length) ∧
    ldc1101_read_reg reg idbuf 2 resp = none ∧
    ldc1101_read_reg reg databuf 4 resp = none := by
  have key : ∀ (b : List Nat) (l : Nat),
      (ldc1101_read_reg reg b l resp).isSome ↔ l + 1 ≤ b.length := by
    intro b l
    unfold ldc1101_read_reg spi_transfer
    rw [show (ldc1101_read_reg_frame reg b).length = b.length from List.length_set b _ _]
    split <;> simp_all
  refine ⟨key buf len, ?_, ?_⟩
  · cases hopt : ldc1101_read_reg reg idbuf 2 resp with
    | none => rfl
    | some val =>
      have hlen := (key idbuf 2).mp (by rw [hopt]; rfl)
      omega
  · cases hopt : ldc1101_read_reg reg databuf 4 resp with
    | none => rfl
    | some val =>
      have hlen := (key databuf 4).mp (by rw [hopt]; rfl)
      omega

/-- Witness for C2 at the two call sites' buffer shapes. -/
theorem c2_read_reg_overrun_witness :
    ((ldc1101_read_reg 0x3F [0, 0] 2 (fun _ => 0)).isSome ↔ 2 + 1 ≤ ([0, 0] : List Nat).length) ∧
    ldc1101_read_reg 0x3F [0, 0] 2 (fun _ => 0) = none ∧
    ldc1101_read_reg 0x3F [0, 0, 0, 0] 4 (fun _ => 0) = none :=
  c2_read_reg_overrun 0x3F (fun _ => 0) [0, 0] [0, 0] [0, 0, 0, 0] 2 rfl rfl

/-- C5 (divergence record): the LHR data read issued by `main` passes
`length = 4` (the size of its 4-byte buffer), so the transfer covers
`4 + 1 = 5` bytes — four response bytes, not the three the claim
describes — and under total indexing it falls into the out-of-bounds
branch. -/
theorem c5_lhr_read_transfers_five_bytes (resp : Nat → Nat) :
    main_lhr_read resp = none := by
  rfl

/-- The busy-poll exits exactly at the first status byte whose data-ready
bit (bit 0, inverted sense) is clear; every earlier status read had the
bit set and made the loop repeat. -/
theorem poll_loop_first_ready (ss : List Nat) :
    ∀ i b, poll_loop ss = some (i, b) →
      ss[i]? = some b ∧ b &&& LDC1101_LHR_DRDY = 0 ∧
      ∀ j c, j < i → ss[j]? = some c → c &&& LDC1101_LHR_DRDY ≠ 0 := by
  induction ss with
  | nil => intro i b h; simp [poll_loop] at h
  | cons s rest ih =>
    intro i b h
    unfold poll_loop at h
    by_cases hs : s &&& LDC1101_LHR_DRDY = 0
    · rw [if_pos hs] at h
      simp only [Option.some.injEq, Prod.mk.injEq] at h
      obtain ⟨hi, hb⟩ := h
      subst hi
      subst hb
      exact ⟨by simp, hs, fun j c hj _ => absurd hj (Nat.not_lt_zero j)⟩
    · rw [if_neg hs] at h
      cases hp : poll_loop rest with
      | none => rw [hp] at h; simp at h
      | some p =>
        obtain ⟨i0, b0⟩ := p
        rw [hp] at h
        simp only [Option.some.injEq, Prod.mk.injEq] at h
        obtain ⟨hi, hb⟩ := h
        subst hi
        subst hb
        obtain ⟨g1, g2, g3⟩ := ih i0 b0 hp
        refine ⟨by simpa using g1, g2, ?_⟩
        intro j c hj hc
        cases j with
        | zero =>
          have hcs : s = c := by simpa using hc
          subst hcs
          exact hs
        | succ j0 =>
          have hc2 : rest[j0]? = some c := by simpa using hc
          exact g3 j0 c (by omega) hc2

/-- C1: whenever a sampling iteration decodes a sample, the immediately
preceding status read observed the data-ready condition (bit 0 of
LHR_STATUS clear), and the busy-poll repeated the status read — every
earlier read saw the bit set — until that condition held. -/
theorem c1_decode_only_after_ready (t : SampleTxn) (v : Nat)
    (h : sample_iteration t = some (SampleOutcome.logged v)) :
    ∃ i b, poll_loop t.statuses = some (i, b) ∧
      t.statuses[i]? = some b ∧
      b &&& LDC1101_LHR_DRDY = 0 ∧
      ∀ j c, j < i → t.statuses[j]? = some c → c &&& LDC1101_LHR_DRDY ≠ 0 := by
  unfold sample_iteration at h
  cases hp : poll_loop t.statuses with
  | none => rw [hp] at h; simp at h
  | some p =>
    obtain ⟨i, b⟩ := p
    obtain ⟨g1, g2, g3⟩ := poll_loop_first_ready t.statuses i b hp
    exact ⟨i, b, rfl, g1, g2, g3⟩

/-- Witness for C1: an iteration that sees a not-ready status (1), then a
ready one (0), and decodes a sample. -/
theorem c1_decode_only_after_ready_witness :
    ∃ i b, poll_loop txn_read_ok.statuses = some (i, b) ∧
      txn_read_ok.statuses[i]? = some b ∧
      b &&& LDC1101_LHR_DRDY = 0 ∧
      ∀ j c, j < i → txn_read_ok.statuses[j]? = some c → c &&& LDC1101_LHR_DRDY ≠ 0 :=
  c1_decode_only_after_ready txn_read_ok 0 rfl

/-- C3: once the first five configuration writes and the identity read
have succeeded on the bus, a returned identity byte different from 0xD4
makes initialization end in the identity-mismatch fatal error with no
START_CONFIG write ever issued, while a returned byte equal to 0xD4
makes initialization proceed to write 0 to START_CONFIG. -/
theorem c3_identity_gate (tr : Nat → SpiResult)
    (hok : ∀ i, i ≤ 6 → (tr i).ok = true) :
    ((tr 5).resp 1 ≠ SPI_DEV_ID →
        (ldc1101_init tr).2 = InitResult.identityMismatch ((tr 5).resp 1) ∧
        Ev.writeReg LDC1101_START_CONFIG 0 ∉ (ldc1101_init tr).1) ∧
    ((tr 5).resp 1 = SPI_DEV_ID →
        Ev.writeReg LDC1101_START_CONFIG 0 ∈ (ldc1101_init tr).1 ∧
        (ldc1101_init tr).2 = InitResult.success) := by
  have h0 := hok 0 (by omega)
  have h1 := hok 1 (by omega)
  have h2 := hok 2 (by omega)
  have h3 := hok 3 (by omega)
  have h4 := hok 4 (by omega)
  have h5 := hok 5 (by omega)
  have h6 := hok 6 (by omega)
  constructor
  · intro hne
    unfold ldc1101_init
    rw [h0, h1, h2, h3, h4, h5, if_pos rfl, if_pos rfl, if_pos rfl, if_pos rfl,
      if_pos rfl, if_pos rfl, if_neg hne]
    refine ⟨rfl, ?_⟩
    show Ev.writeReg LDC1101_START_CONFIG 0 ∉
      [Ev.writeReg LDC1101_ALT_CONFIG LOPTIMAL, Ev.writeReg LDC1101_D_CONF DOK_REPORT,
       Ev.writeReg LDC1101_LHR_RCOUNT_MSB ((rcount >>> 8) &&& 0xFF),
       Ev.writeReg LDC1101_LHR_RCOUNT_LSB (rcount &&& 0xFF),
       Ev.writeReg LDC1101_RP_SET rp_value, Ev.readReg LDC1101_CHIP_ID 2]
    decide
  · intro heq
    unfold ldc1101_init
    rw [h0, h1, h2, h3, h4, h5, h6, if_pos rfl, if_pos rfl, if_pos rfl, if_pos rfl,
      if_pos rfl, if_pos rfl, if_pos heq, if_pos rfl]
    exact ⟨by decide, rfl⟩

/-- Witness for C3 on a transport whose reads return the expected chip
identity 0xD4. -/
theorem c3_identity_gate_witness :
    Ev.writeReg LDC1101_START_CONFIG 0 ∈ (ldc1101_init tr_good).1 ∧
    (ldc1101_init tr_good).2 = InitResult.success :=
  (c3_identity_gate tr_good (fun _ _ => rfl)).2 rfl

/-- C4: every successful run of `ldc1101_init` issues exactly this event
sequence, in this order: write ALT_CONFIG, write D_CONF, write
LHR_RCOUNT MSB then LSB, write RP_SET, read CHIP_ID, write 0 to
START_CONFIG. -/
theorem c4_init_write_order (tr : Nat → SpiResult)
    (h : (ldc1101_init tr).2 = InitResult.success) :
    (ldc1101_init tr).1 =
      [Ev.writeReg LDC1101_ALT_CONFIG LOPTIMAL,
       Ev.writeReg LDC1101_D_CONF DOK_REPORT,
       Ev.writeReg LDC1101_LHR_RCOUNT_MSB 0xFF,
       Ev.writeReg LDC1101_LHR_RCOUNT_LSB 0xFF,
       Ev.writeReg LDC1101_RP_SET 0x07,
       Ev.readReg LDC1101_CHIP_ID 2,
       Ev.writeReg LDC1101_START_CONFIG 0] := by
  have h0 : (tr 0).ok = true := by
    by_contra hc
    rw [Bool.not_eq_true] at hc
    simp [ldc1101_init, hc] at h
  have h1 : (tr 1).ok = true := by
    by_contra hc
    rw [Bool.not_eq_true] at hc
    simp [ldc1101_init, h0, hc] at h
  have h2 : (tr 2).ok = true := by
    by_contra hc
    rw [Bool.not_eq_true] at hc
    simp [ldc1101_init, h0, h1, hc] at h
  have h3 : (tr 3).ok = true := by
    by_contra hc
    rw [Bool.not_eq_true] at hc
    simp [ldc1101_init, h0, h1, h2, hc] at h
  have h4 : (tr 4).ok = true := by
    by_contra hc
    rw [Bool.not_eq_true] at hc
    simp [ldc1101_init, h0, h1, h2, h3, hc] at h
  have h5 : (tr 5).ok = true := by
    by_contra hc
    rw [Bool.not_eq_true] at hc
    simp [ldc1101_init, h0, h1, h2, h3, h4, hc] at h
  have hid : (tr 5).resp 1 = SPI_DEV_ID := by
    by_contra hc
    simp [ldc1101_init, h0, h1, h2, h3, h4, h5, hc] at h
  have h6 : (tr 6).ok = true := by
    by_contra hc
    rw [Bool.not_eq_true] at hc
    simp [ldc1101_init, h0, h1, h2, h3, h4, h5, hid, hc] at h
  unfold ldc1101_init
  rw [h0, h1, h2, h3, h4, h5, h6, if_pos rfl, if_pos rfl, if_pos rfl, if_pos rfl,
    if_pos rfl, if_pos rfl, if_pos hid, if_pos rfl]
  decide

/-- Witness for C4 on a transport whose transactions all succeed and
whose reads return the expected chip identity. -/
theorem c4_init_write_order_witness :
    (ldc1101_init tr_good).1 =
      [Ev.writeReg LDC1101_ALT_CONFIG LOPTIMAL,
       Ev.writeReg LDC1101_D_CONF DOK_REPORT,
       Ev.writeReg LDC1101_LHR_RCOUNT_MSB 0xFF,
       Ev.writeReg LDC1101_LHR_RCOUNT_LSB 0xFF,
       Ev.writeReg LDC1101_RP_SET 0x07,
       Ev.readReg LDC1101_CHIP_ID 2,
       Ev.writeReg LDC1101_START_CONFIG 0] :=
  c4_init_write_order tr_good (by decide)

/-- One-step unfolding of the sampling loop on a non-empty iteration
list. -/
theorem sampling_loop_cons_eq (t : SampleTxn) (rest : List SampleTxn) :
    sampling_loop (t :: rest) =
      match sample_iteration t with
      | none => ([], LoopEnd.stuckPolling)
      | some (SampleOutcome.logged v) =>
        if t.logOk then
          (SampleOutcome.logged v :: (sampling_loop rest).1, (sampling_loop rest).2)
        else ([], LoopEnd.logWriteAbort)
      | some SampleOutcome.readErrorContinue =>
        (SampleOutcome.readErrorContinue :: (sampling_loop rest).1,
          (sampling_loop rest).2) := rfl

/-- When every iteration's busy-poll completes and every CSV write
succeeds, the sampling loop processes all iterations: a failed data read
produces a logged-and-continue outcome at its position and the loop
still runs to completion. -/
theorem sampling_loop_continues (ts : List SampleTxn)
    (hpoll : ∀ t, t ∈ ts → (poll_loop t.statuses).isSome = true)
    (hlog : ∀ t, t ∈ ts → t.logOk = true) :
    (sampling_loop ts).1.length = ts.length ∧
    (sampling_loop ts).2 = LoopEnd.completed ∧
    ∀ (j : Nat) (u : SampleTxn), ts[j]? = some u → u.readOk = false →
      (sampling_loop ts).1[j]? = some SampleOutcome.readErrorContinue := by
  induction ts with
  | nil => exact ⟨rfl, rfl, fun j u hj => by simp at hj⟩
  | cons t rest ih =>
    have hpt := hpoll t (List.mem_cons_self t rest)
    have hlt := hlog t (List.mem_cons_self t rest)
    obtain ⟨ih1, ih2, ih3⟩ := ih (fun u hu => hpoll u (List.mem_cons_of_mem t hu))
      (fun u hu => hlog u (List.mem_cons_of_mem t hu))
    cases hp : poll_loop t.statuses with
    | none => rw [hp] at hpt; simp at hpt
    | some p =>
      cases hr : t.readOk with
      | true =>
        have hsi : sample_iteration t =
            some (SampleOutcome.logged
              (decode_sample [t.resp 0, t.resp 1, t.resp 2, t.resp 3])) := by
          unfold sample_iteration
          rw [hp]
          dsimp only
          rw [hr, if_pos rfl]
        have hstep : sampling_loop (t :: rest) =
            (SampleOutcome.logged
                (decode_sample [t.resp 0, t.resp 1, t.resp 2, t.resp 3]) ::
              (sampling_loop rest).1, (sampling_loop rest).2) := by
          rw [sampling_loop_cons_eq, hsi]
          dsimp only
          rw [hlt, if_pos rfl]
        rw [hstep]
        refine ⟨by simpa using ih1, ih2, ?_⟩
        intro j u hj hu
        cases j with
        | zero =>
          have : u = t := by simpa using hj.symm
          subst this
          rw [hu] at hr
          cases hr
        | succ j0 =>
          have hj2 : rest[j0]? = some u := by simpa using hj
          simpa using ih3 j0 u hj2 hu
      | false =>
        have hsi : sample_iteration t = some SampleOutcome.readErrorContinue := by
          unfold sample_iteration
          rw [hp]
          dsimp only
          rw [hr, if_neg (by simp)]
        have hstep : sampling_loop (t :: rest) =
            (SampleOutcome.readErrorContinue :: (sampling_loop rest).1,
              (sampling_loop rest).2) := by
          rw [sampling_loop_cons_eq, hsi]
        rw [hstep]
        refine ⟨by simpa using ih1, ih2, ?_⟩
        intro j u hj hu
        cases j with
        | zero => simp
        | succ j0 =>
          have hj2 : rest[j0]? = some u := by simpa using hj
          simpa using ih3 j0 u hj2 hu

/-- C8: the error-handling asymmetry.  A transport failure on any of the
five pre-identity configuration writes (or on the START_CONFIG trigger
write) terminates initialization at that write — the event trace stops
there, with no retry; a transport failure on a steady-state sample-data
read instead yields a continue outcome at that iteration and the
sampling loop still processes every iteration to completion. -/
theorem c8_error_asymmetry (tr : Nat → SpiResult) (k : Nat) (ts : List SampleTxn)
    (hk : k < 5)
    (hprev : ∀ i, i < k → (tr i).ok = true)
    (hfail : (tr k).ok = false)
    (hpoll : ∀ t, t ∈ ts → (poll_loop t.statuses).isSome = true)
    (hlog : ∀ t, t ∈ ts → t.logOk = true) :
    ((ldc1101_init tr).2 = InitResult.writeFailed (init_write_reg k) ∧
      (ldc1101_init tr).1.length = k + 1) ∧
    (∀ tr2 : Nat → SpiResult, (∀ i, i ≤ 5 → (tr2 i).ok = true) →
      (tr2 5).resp 1 = SPI_DEV_ID → (tr2 6).ok = false →
      (ldc1101_init tr2).2 = InitResult.writeFailed LDC1101_START_CONFIG) ∧
    ((sampling_loop ts).1.length = ts.length ∧
      (sampling_loop ts).2 = LoopEnd.completed ∧
      ∀ (j : Nat) (u : SampleTxn), ts[j]? = some u → u.readOk = false →
        (sampling_loop ts).1[j]? = some SampleOutcome.readErrorContinue) := by
  refine ⟨?_, ?_, sampling_loop_continues ts hpoll hlog⟩
  · interval_cases k
    · simp [ldc1101_init, hfail, init_write_reg]
    · have g0 := hprev 0 (by omega)
      simp [ldc1101_init, g0, hfail, init_write_reg]
    · have g0 := hprev 0 (by omega)
      have g1 := hprev 1 (by omega)
      simp [ldc1101_init, g0, g1, hfail, init_write_reg]
    · have g0 := hprev 0 (by omega)
      have g1 := hprev 1 (by omega)
      have g2 := hprev 2 (by omega)
      simp [ldc1101_init, g0, g1, g2, hfail, init_write_reg]
    · have g0 := hprev 0 (by omega)
      have g1 := hprev 1 (by omega)
      have g2 := hprev 2 (by omega)
      have g3 := hprev 3 (by omega)
      simp [ldc1101_init, g0, g1, g2, g3, hfail, init_write_reg]
  · intro tr2 hok2 hid2 hfail2
    have g0 := hok2 0 (by omega)
    have g1 := hok2 1 (by omega)
    have g2 := hok2 2 (by omega)
    have g3 := hok2 3 (by omega)
    have g4 := hok2 4 (by omega)
    have g5 := hok2 5 (by omega)
    unfold ldc1101_init
    rw [g0, g1, g2, g3, g4, g5, hfail2, if_pos rfl, if_pos rfl, if_pos rfl,
      if_pos rfl, if_pos rfl, if_pos rfl, if_pos hid2, if_neg (by simp)]

/-- Witness for C8: the first configuration write fails on `tr_fail0`;
one sampling iteration with a failed data read continues the loop. -/
theorem c8_error_asymmetry_witness :
    (((ldc1101_init tr_fail0).2 = InitResult.writeFailed (init_write_reg 0) ∧
        (ldc1101_init tr_fail0).1.length = 0 + 1) ∧
      (∀ tr2 : Nat → SpiResult, (∀ i, i ≤ 5 → (tr2 i).ok = true) →
        (tr2 5).resp 1 = SPI_DEV_ID → (tr2 6).ok = false →
        (ldc1101_init tr2).2 = InitResult.writeFailed LDC1101_START_CONFIG) ∧
      ((sampling_loop [txn_read_err]).1.length = [txn_read_err].length ∧
        (sampling_loop [txn_read_err]).2 = LoopEnd.completed ∧
        ∀ (j : Nat) (u : SampleTxn), [txn_read_err][j]? = some u → u.readOk = false →
          (sampling_loop [txn_read_err]).1[j]? = some SampleOutcome.readErrorContinue)) :=
  c8_error_asymmetry tr_fail0 0 [txn_read_err] (by omega)
    (fun i hi => absurd hi (Nat.not_lt_zero i)) rfl
    (fun t ht => by rw [List.mem_singleton] at ht; subst ht; rfl)
    (fun t ht => by rw [List.mem_singleton] at ht; subst ht; rfl)
